import Mathlib

/-!
Verification development for the import-hawkeye detect → transform → dedup-load
engine (src/app/detector.py, src/app/transform.py, src/app/bigquery_loader.py,
src/app/conductor.py, src/app/schemas/).

Modelling conventions of this shallow embedding:
* Machine timestamps are integers (seconds since the Unix epoch, UTC); calendar
  dates are integer day indices (days since the epoch, UTC).
* Pandas cell values are the inductive `Cell`; per-cell parsing performed by the
  pandas library (`pd.to_datetime(errors="coerce")`, `pd.to_numeric(errors="coerce")`,
  `astype(str)`) is abstracted as a `ParseOracle` of total functions into `Option`,
  which is exactly the observable contract of the `errors="coerce"` mode: every
  cell either parses to a value or yields a missing value, and no exception escapes.
* Python exceptions are values `PyExc` carrying the exception class and message;
  a raising function returns `Except PyExc α`.
* A pandas DataFrame is column-major: an ordered list of (column name, cells).
* The BigQuery service state relevant to one load call is the destination table
  contents, the staging table contents, and a set of fault flags saying which of
  the remote operations fails (raises) during the call.
-/

namespace ImportHawkeye

/-- Value stored in one cell of a DataFrame / warehouse row.  `null` stands for
NaN / NaT / NULL; `ts` is a UTC instant in epoch seconds; `date` is a UTC day
index. -/
inductive Cell where
  | null
  | str (s : String)
  | num (q : Rat)
  | int (n : Int)
  | ts (t : Int)
  | date (d : Int)
deriving DecidableEq, Repr

/-- Python exception classes that occur in the modelled code paths
(src/app/custom_exceptions.py plus the built-ins the code raises). -/
inductive ExcClass where
  | valueError
  | attributeError
  | detectionError
  | transformError
  | loadError
  | requestError
  | watcherError
deriving DecidableEq, Repr

/-- Whether the class is a subclass of HawkeyeError (src/app/custom_exceptions.py):
the five custom classes are, the Python built-ins are not. -/
def ExcClass.isHawkeyeError : ExcClass → Bool
  | .detectionError => true
  | .transformError => true
  | .loadError => true
  | .requestError => true
  | .watcherError => true
  | _ => false

/-- A raised Python exception: its class and its message. -/
structure PyExc where
  cls : ExcClass
  msg : String
deriving DecidableEq, Repr

/-- DataType enum from src/app/detector.py. -/
inductive DataType where
  | vhf
  | gps
  | airdefense
  | skytrace
  | shadowfleet_port_events
  | shadowfleet_vessel_history
deriving DecidableEq, Repr

/-- One entry of DETECTION_RULES (src/app/detector.py): the record-type tag, the
signature column set (`required_any`) and the destination table. -/
structure DetectionRule where
  dtype : DataType
  required_any : List String
  table : String
deriving DecidableEq, Repr

/-- DETECTION_RULES from src/app/detector.py lines 34-64, in declaration order
(Python dicts iterate in insertion order). -/
def DETECTION_RULES : List DetectionRule :=
  [⟨.shadowfleet_vessel_history, ["Built Year", "Speed Knots", "Navigation Status"],
      "shadowfleet_vessel_history"⟩,
   ⟨.shadowfleet_port_events, ["Ata", "Port Name", "Duration Seconds"],
      "shadowfleet_port_events"⟩,
   ⟨.airdefense, ["Potential Emitter", "Country Of Origin"], "airdefense"⟩,
   ⟨.skytrace, ["Advertiser Id", "Satellite Provider", "App Id"], "skytrace"⟩,
   ⟨.vhf, ["Bandwidth", "Signal Type", "Burst Duration"], "vhf"⟩,
   ⟨.gps, ["Emitter Id", "Max Freq", "Min Freq"], "gps"⟩]

/-- Whether a rule has a non-empty intersection with the input columns:
`matched_cols = [col for col in rules["required_any"] if col in column_set]`
is non-empty (src/app/detector.py lines 79-80). -/
def ruleMatches (columns : List String) (r : DetectionRule) : Bool :=
  r.required_any.any (fun col => columns.contains col)

/-- Rendering of `columns[:10]` in the failure message of detect_data_type. -/
def fmtColumns (cols : List String) : String :=
  String.intercalate ", " cols

/-- detect_data_type from src/app/detector.py lines 67-85: scan DETECTION_RULES in
order, return the first rule whose signature intersects the input columns; if none
matches, raise `ValueError(f"Cannot detect data type from columns: ...")` naming
the first ten columns. -/
def detect_data_type (columns : List String) : Except PyExc (DataType × String) :=
  match DETECTION_RULES.find? (ruleMatches columns) with
  | some r => .ok (r.dtype, r.table)
  | none =>
      .error ⟨.valueError,
        "Cannot detect data type from columns: " ++ fmtColumns (columns.take 10) ++ "..."⟩

/-- SchemaConfig from src/app/schemas/__init__.py.  `bigquery_schema` keeps only
the ordered field names of the BigQuery schema definition: the loader consults
nothing else about those fields in the modelled paths. -/
structure SchemaConfig where
  columns_to_drop : List String
  column_mapping : List (String × String)
  timestamp_columns : List String
  float_columns : List String
  int_columns : List String
  string_columns : List String
  bigquery_schema : List String
  partition_field : String
  cluster_fields : List String
  dedup_key : List String
deriving DecidableEq, Repr

/-- The GPS schema configuration, transcribed from src/app/schemas/gps.py. -/
def gpsSchema : SchemaConfig where
  columns_to_drop := ["_id", "_index", "Snet Username", "Image Id"]
  column_mapping :=
    [("Document ID", "document_id"), ("Display Name", "display_name"), ("Id", "id"),
     ("Emitter Id", "emitter_id"), ("Pass Group Id", "pass_group_id"), ("City", "city"),
     ("Country", "country"), ("Lat", "latitude"), ("Lon", "longitude"),
     ("Detected Location", "detected_location"), ("Event Time", "event_time"),
     ("Last Updated", "last_updated"), ("Received At", "received_at"), ("Source", "source"),
     ("Super Type", "super_type"), ("Type", "type"), ("Constellation", "constellation"),
     ("Ellipse Area", "ellipse_area"), ("Frequency", "frequency"), ("Max Freq", "max_freq"),
     ("Min Freq", "min_freq"), ("Num Bursts", "num_bursts"), ("Orientation", "orientation"),
     ("Semi Major", "semi_major"), ("Semi Minor", "semi_minor"), ("Soi", "soi"),
     ("Version", "version"), ("Power Level", "power_level")]
  timestamp_columns := ["event_time", "last_updated", "received_at"]
  float_columns :=
    ["latitude", "longitude", "ellipse_area", "frequency", "max_freq", "min_freq",
     "orientation", "semi_major", "semi_minor", "power_level"]
  int_columns := ["id", "num_bursts"]
  string_columns :=
    ["document_id", "display_name", "emitter_id", "pass_group_id", "city", "country",
     "detected_location", "source", "super_type", "type", "constellation", "soi", "version"]
  bigquery_schema :=
    ["document_id", "display_name", "id", "emitter_id", "pass_group_id", "city", "country",
     "latitude", "longitude", "detected_location", "event_time", "event_date",
     "last_updated", "received_at", "source", "super_type", "type", "constellation",
     "ellipse_area", "frequency", "max_freq", "min_freq", "num_bursts", "orientation",
     "semi_major", "semi_minor", "soi", "version", "power_level"]
  partition_field := "event_date"
  cluster_fields := ["country", "type", "source"]
  dedup_key := ["orientation", "semi_major", "semi_minor", "event_time", "event_date"]

/-- The Skytrace schema configuration, transcribed from src/app/schemas/skytrace.py. -/
def skytraceSchema : SchemaConfig where
  columns_to_drop := ["Snet Username", "Event Time.1", "Mac.1", "Name.1", "Tech.1"]
  column_mapping :=
    [("Document ID", "document_id"), ("Display Name", "display_name"), ("City", "city"),
     ("Country", "country"), ("Country Code", "country_code"), ("Latitude", "latitude"),
     ("Longitude", "longitude"), ("Altitude", "altitude"), ("Event Time", "event_time"),
     ("Last Updated", "last_updated"), ("Event Time Local", "event_time_local"),
     ("Event Timezone", "event_timezone"), ("First Seen", "first_seen"),
     ("Last Seen", "last_seen"), ("Time", "time"),
     ("Day Month Year Local", "day_month_year_local"), ("Day Of Week", "day_of_week"),
     ("Day Of Week Local", "day_of_week_local"), ("Hour Local", "hour_local"),
     ("Minute Local", "minute_local"), ("Source", "source"), ("Super Type", "super_type"),
     ("Type", "type"), ("_id", "_id"), ("_index", "_index"), ("Meta Row Id", "meta_row_id"),
     ("Advertiser Id", "advertiser_id"), ("App Id", "app_id"), ("Carrier", "carrier"),
     ("Device Brand", "device_brand"), ("Device Model", "device_model"),
     ("Platform", "platform"), ("User Agent", "user_agent"), ("Locale", "locale"),
     ("Entity Age", "entity_age"), ("Entity Id", "entity_id"), ("Entity Type", "entity_type"),
     ("Event Location Accuracy Confidence", "event_location_accuracy_confidence"),
     ("Event Location Accuracy Score", "event_location_accuracy_score"),
     ("Horizontal Accuracy", "horizontal_accuracy"),
     ("Vertical Accuracy", "vertical_accuracy"), ("Heading", "heading"), ("Speed", "speed"),
     ("Loc At", "loc_at"), ("Ip V 4", "ip_v4"),
     ("Connected Wifi Vendor Name", "connected_wifi_vendor_name"),
     ("Wifi Bssid", "wifi_bssid"), ("Wifi Ssid", "wifi_ssid"), ("Rssi", "rssi"),
     ("Satellite Provider", "satellite_provider"),
     ("Satellite Provider Country", "satellite_provider_country"),
     ("Satellite Provider Type", "satellite_provider_type"), ("Name", "name"),
     ("Mac", "mac"), ("Tech", "tech"), ("Device Os", "device_os"),
     ("Device Os Version", "device_os_version"), ("Ip V 6", "ip_v6"),
     ("Site Id", "site_id"), ("Vendor Name", "vendor_name")]
  timestamp_columns :=
    ["event_time", "last_updated", "event_time_local", "first_seen", "last_seen", "time"]
  float_columns :=
    ["latitude", "longitude", "altitude", "horizontal_accuracy", "vertical_accuracy",
     "heading", "speed"]
  int_columns :=
    ["hour_local", "minute_local", "entity_age", "event_location_accuracy_score", "rssi"]
  string_columns :=
    ["document_id", "display_name", "city", "country", "country_code", "event_timezone",
     "day_month_year_local", "day_of_week", "day_of_week_local", "source", "super_type",
     "type", "_id", "_index", "meta_row_id", "advertiser_id", "app_id", "carrier",
     "device_brand", "device_model", "platform", "user_agent", "locale", "entity_id",
     "entity_type", "event_location_accuracy_confidence", "loc_at", "ip_v4",
     "connected_wifi_vendor_name", "wifi_bssid", "wifi_ssid", "satellite_provider",
     "satellite_provider_country", "satellite_provider_type", "name", "mac", "tech",
     "device_os", "device_os_version", "ip_v6", "site_id", "vendor_name"]
  bigquery_schema :=
    ["document_id", "display_name", "city", "country", "country_code", "latitude",
     "longitude", "altitude", "event_time", "event_date", "last_updated",
     "event_time_local", "event_timezone", "first_seen", "last_seen", "time",
     "day_month_year_local", "day_of_week", "day_of_week_local", "hour_local",
     "minute_local", "source", "super_type", "type", "_id", "_index", "meta_row_id",
     "advertiser_id", "app_id", "carrier", "device_brand", "device_model", "platform",
     "user_agent", "locale", "entity_age", "entity_id", "entity_type",
     "event_location_accuracy_confidence", "event_location_accuracy_score",
     "horizontal_accuracy", "vertical_accuracy", "heading", "speed", "loc_at", "ip_v4",
     "connected_wifi_vendor_name", "wifi_bssid", "wifi_ssid", "rssi",
     "satellite_provider", "satellite_provider_country", "satellite_provider_type",
     "name", "mac", "tech", "device_os", "device_os_version", "ip_v6", "site_id",
     "vendor_name"]
  partition_field := "event_date"
  cluster_fields := ["country_code", "satellite_provider", "entity_id"]
  dedup_key := ["latitude", "longitude", "event_time", "entity_id"]

/-- get_schema from src/app/schemas/__init__.py.  For VHF, AIRDEFENSE and the two
Shadowfleet types, building the SchemaConfig reads a module attribute that the
schema modules do not define (vhf.DEDUP_KEY, airdefense.DEDUP_KEY,
shadowfleet.PORT_EVENTS_DEDUP_KEY, shadowfleet.VESSEL_HISTORY_DEDUP_KEY), so the
call raises AttributeError before returning; only GPS and SKYTRACE lookups
succeed in this snapshot of the source. -/
def get_schema : DataType → Except PyExc SchemaConfig
  | .gps => .ok gpsSchema
  | .skytrace => .ok skytraceSchema
  | .vhf =>
      .error ⟨.attributeError, "module app.schemas.vhf has no attribute DEDUP_KEY"⟩
  | .airdefense =>
      .error ⟨.attributeError, "module app.schemas.airdefense has no attribute DEDUP_KEY"⟩
  | .shadowfleet_port_events =>
      .error ⟨.attributeError,
        "module app.schemas.shadowfleet has no attribute PORT_EVENTS_DEDUP_KEY"⟩
  | .shadowfleet_vessel_history =>
      .error ⟨.attributeError,
        "module app.schemas.shadowfleet has no attribute VESSEL_HISTORY_DEDUP_KEY"⟩

/-- A warehouse row: the value of each named column (`Cell.null` where the table
has no value for the column). -/
abbrev Row : Type := String → Cell

/-- The `non_string_columns` set built inside load_to_bigquery
(src/app/bigquery_loader.py lines 146-151): float, timestamp and int columns plus
the DATE partition field. -/
def non_string_columns (sc : SchemaConfig) : List String :=
  sc.float_columns ++ sc.timestamp_columns ++ sc.int_columns ++ [sc.partition_field]

/-- SQL equality `t.col = s.col` as a match condition: TRUE only when both sides
are non-null and equal (NULL = anything is not TRUE in SQL three-valued logic). -/
def sqlEqCell : Cell → Cell → Bool
  | .null, _ => false
  | _, .null => false
  | a, b => decide (a = b)

/-- SQL `COALESCE(x, '')`: null becomes the empty string. -/
def coalesceEmpty : Cell → Cell
  | .null => .str ""
  | c => c

/-- One conjunct of the MERGE ON clause (src/app/bigquery_loader.py lines 153-157):
`t.col = s.col` when the column is a non-string column, otherwise
`COALESCE(t.col, '') = COALESCE(s.col, '')`. -/
def onCondHolds (sc : SchemaConfig) (col : String) (t s : Row) : Bool :=
  if (non_string_columns sc).contains col then sqlEqCell (t col) (s col)
  else decide (coalesceEmpty (t col) = coalesceEmpty (s col))

/-- Whether a destination row `t` and a staged row `s` match under the full ON
clause: the conjunction over the schema dedup key. -/
def rowMatches (sc : SchemaConfig) (t s : Row) : Bool :=
  sc.dedup_key.all (fun col => onCondHolds sc col t s)

/-- The rows the MERGE statement inserts (src/app/bigquery_loader.py lines 160-167):
every staged row whose dedup-key tuple matches no existing destination row; there
is no WHEN MATCHED clause, so nothing else happens. -/
def mergeInsertNew (sc : SchemaConfig) (dest staging : List Row) : List Row :=
  staging.filter (fun s => ! dest.any (fun t => rowMatches sc t s))

/-- The dedup-key tuple of a row. -/
def keyTuple (sc : SchemaConfig) (r : Row) : List Cell :=
  sc.dedup_key.map (fun col => r col)

/-- The number of distinct dedup-key tuples among a batch of rows. -/
def distinctKeyCount (sc : SchemaConfig) (rows : List Row) : Nat :=
  ((rows.map (keyTuple sc)).dedup).length

/-- filter_schema_to_dataframe (src/app/bigquery_loader.py lines 69-83) reduced to
the field names: keep the schema fields present among the DataFrame columns. -/
def filter_schema_to_dataframe (schemaFields : List String) (dfColumns : List String) :
    List String :=
  schemaFields.filter (fun f => dfColumns.contains f)

/-- Restriction of a row to the given columns; every other column is NULL.  This
is what staging a DataFrame under the filtered schema, and the MERGE INSERT
listing only the filtered columns, both produce. -/
def projectRow (cols : List String) (r : Row) : Row :=
  fun c => if cols.contains c then r c else Cell.null

/-- Which of the four remote BigQuery operations of one load call raise. -/
structure LoadFaults where
  ensureFails : Bool
  stageFails : Bool
  mergeFails : Bool
  cleanupFails : Bool
deriving DecidableEq, Repr

/-- The faultless environment: every remote operation succeeds. -/
def noFaults : LoadFaults := ⟨false, false, false, false⟩

/-- BigQuery state relevant to one destination: the destination table rows and
the staging table contents (`none` when the staging table does not exist). -/
structure BqTables where
  dest : List Row
  staging : Option (List Row)

/-- Observable result of one load_to_bigquery call: what the call returns or
raises, and the BigQuery state it leaves behind. -/
structure LoadResult where
  outcome : Except PyExc Nat
  dest : List Row
  staging : Option (List Row)

/-- The LoadError any exception inside the try block is wrapped into
(src/app/bigquery_loader.py lines 185-187). -/
def loadErrorWrap (msg : String) : PyExc :=
  ⟨.loadError, "Failed to load data to BigQuery: " ++ msg⟩

/-- load_to_bigquery (src/app/bigquery_loader.py lines 86-187).  Steps, in source
order: require a table name; ensure the destination exists; compute the filtered
schema; stage the DataFrame with WRITE_TRUNCATE; run the MERGE, whose affected-row
count is the number of inserted rows; delete the staging table.  Every failure
inside the try block — the cleanup deletion included, since it is inside the
try with no handler of its own — propagates as a LoadError.  A staging-load
failure leaves the prior staging contents (a load job is atomic); a merge or
cleanup failure leaves the freshly staged rows behind. -/
def load_to_bigquery (sc : SchemaConfig) (tableGiven : Bool)
    (dfColumns : List String) (dfRows : List Row)
    (st : BqTables) (f : LoadFaults) : LoadResult :=
  if !tableGiven then
    ⟨.error ⟨.loadError, "Table name is required"⟩, st.dest, st.staging⟩
  else if f.ensureFails then
    ⟨.error (loadErrorWrap "ensure destination failed"), st.dest, st.staging⟩
  else
    let filteredCols := filter_schema_to_dataframe sc.bigquery_schema dfColumns
    if f.stageFails then
      ⟨.error (loadErrorWrap "staging load failed"), st.dest, st.staging⟩
    else
      let staged := dfRows.map (projectRow filteredCols)
      if f.mergeFails then
        ⟨.error (loadErrorWrap "merge failed"), st.dest, some staged⟩
      else
        let inserted := mergeInsertNew sc st.dest staged
        if f.cleanupFails then
          ⟨.error (loadErrorWrap "staging cleanup failed"), st.dest ++ inserted, some staged⟩
        else
          ⟨.ok inserted.length, st.dest ++ inserted, none⟩

/-- A pandas DataFrame, column-major: ordered (column name, cells) pairs. -/
abbrev Df : Type := List (String × List Cell)

/-- The column names of a DataFrame, in order (`df.columns`). -/
def dfColumnNames (df : Df) : List String := df.map (fun c => c.1)

/-- The number of rows (`len(df)`): the length of the first column (0 when the
frame has no columns). -/
def nRows (df : Df) : Nat :=
  match df with
  | [] => 0
  | c :: _ => c.2.length

/-- A DataFrame in which every column holds exactly `n` cells. -/
def Rectangular (df : Df) (n : Nat) : Prop :=
  ∀ c ∈ df, c.2.length = n

/-- The cells of the named column (first occurrence), `[]` when absent. -/
def getColCells (df : Df) (name : String) : List Cell :=
  match df.find? (fun c => c.1 = name) with
  | some c => c.2
  | none => []

/-- Per-cell behaviour of the pandas operations the transformer calls with
`errors="coerce"`, abstracted as total functions: a cell either parses or yields
a missing value, never an exception.  `to_datetime_utc` is
`pd.to_datetime(errors="coerce", utc=True)`; `to_datetime_naive` is the second,
utc-less `pd.to_datetime(errors="coerce")` call on a cell that is not already a
datetime (on a datetime cell that call is the identity, which the embedding
hard-codes); `to_numeric` is `pd.to_numeric(errors="coerce")`; `py_str` is the
stringification `astype(str)` applies to one cell. -/
structure ParseOracle where
  to_datetime_utc : Cell → Option Int
  to_datetime_naive : Cell → Option Int
  to_numeric : Cell → Option Rat
  py_str : Cell → String

/-- Rounding of `Series.round()` (numpy): round half to even. -/
def roundHalfEven (q : Rat) : Int :=
  let f := q.floor
  let r : Rat := q - f
  if r < 1/2 then f
  else if 1/2 < r then f + 1
  else if f % 2 = 0 then f else f + 1

/-- Timestamp coercion of one cell (src/app/transform.py line 53): parse to a UTC
instant, unparseable becomes null. -/
def tsCoerce (o : ParseOracle) (c : Cell) : Cell :=
  match o.to_datetime_utc c with
  | some t => .ts t
  | none => .null

/-- Float coercion of one cell (src/app/transform.py line 59). -/
def floatCoerce (o : ParseOracle) (c : Cell) : Cell :=
  match o.to_numeric c with
  | some q => .num q
  | none => .null

/-- Integer coercion of one cell (src/app/transform.py line 65):
`pd.to_numeric(errors="coerce").round().astype("Int64")`. -/
def intCoerce (o : ParseOracle) (c : Cell) : Cell :=
  match o.to_numeric c with
  | some q => .int (roundHalfEven q)
  | none => .null

/-- String coercion of one cell (src/app/transform.py line 70):
`astype(str).replace("nan", None)`. -/
def strCoerce (o : ParseOracle) (c : Cell) : Cell :=
  let s := o.py_str c
  if s = "nan" then .null else .str s

/-- The UTC calendar day index of a UTC instant (`.dt.date` on a UTC datetime
column): floor division of the epoch seconds by 86400. -/
def utcDay (t : Int) : Int := Int.fdiv t 86400

/-- One cell of the derived event_date column (src/app/transform.py line 75):
`pd.to_datetime(df["event_time"], errors="coerce").dt.date` applied to the
current event_time cell.  On a cell that is already a datetime the inner call is
the identity; on null it yields NaT; otherwise it parses (without utc). -/
def eventDateCell (o : ParseOracle) (c : Cell) : Cell :=
  match c with
  | .ts t => .date (utcDay t)
  | .null => .null
  | c =>
      match o.to_datetime_naive c with
      | some t => .date (utcDay t)
      | none => .null

/-- Step 1 of clean_dataframe (src/app/transform.py lines 38-41): drop the
schema's columns_to_drop that are present. -/
def dropColumns (bad : List String) (df : Df) : Df :=
  df.filter (fun c => ! bad.contains c.1)

/-- Renaming of one column name under the schema's column_mapping. -/
def applyMapping (m : List (String × String)) (name : String) : String :=
  match m.find? (fun kv => kv.1 = name) with
  | some kv => kv.2
  | none => name

/-- Step 2 of clean_dataframe (src/app/transform.py lines 44-47): rename the
mapped columns that are present. -/
def renameColumns (m : List (String × String)) (df : Df) : Df :=
  df.map (fun c => (applyMapping m c.1, c.2))

/-- Apply a per-cell coercion to the named column if present (the body of
`if col in df.columns: df[col] = convert(df[col])`). -/
def coerceColumn (name : String) (f : Cell → Cell) (df : Df) : Df :=
  df.map (fun c => if c.1 = name then (c.1, c.2.map f) else c)

/-- One coercion loop of clean_dataframe over a schema column list. -/
def coerceAll (names : List String) (f : Cell → Cell) (df : Df) : Df :=
  names.foldl (fun acc n => coerceColumn n f acc) df

/-- Replace the named column's cells in place, or append the column when absent
(`df[name] = cells`). -/
def setCol (df : Df) (name : String) (cells : List Cell) : Df :=
  if df.any (fun c => c.1 = name) then
    df.map (fun c => if c.1 = name then (name, cells) else c)
  else df ++ [(name, cells)]

/-- The body of clean_dataframe (src/app/transform.py lines 33-78) after the
schema lookup: drop, rename, coerce timestamps, floats, integers and strings in
that order, then derive the event_date partition column when an event_time
column exists. -/
def clean_dataframe_with (o : ParseOracle) (sc : SchemaConfig) (df : Df) : Df :=
  let df1 := dropColumns sc.columns_to_drop df
  let df2 := renameColumns sc.column_mapping df1
  let df3 := coerceAll sc.timestamp_columns (tsCoerce o) df2
  let df4 := coerceAll sc.float_columns (floatCoerce o) df3
  let df5 := coerceAll sc.int_columns (intCoerce o) df4
  let df6 := coerceAll sc.string_columns (strCoerce o) df5
  if (dfColumnNames df6).contains "event_time" then
    setCol df6 "event_date" ((getColCells df6 "event_time").map (eventDateCell o))
  else df6

/-- clean_dataframe (src/app/transform.py lines 24-82): look up the schema and
transform; any exception inside the try block — in this snapshot only the schema
lookup can raise — is wrapped into a TransformError. -/
def clean_dataframe (o : ParseOracle) (dt : DataType) (df : Df) : Except PyExc Df :=
  match get_schema dt with
  | .ok sc => .ok (clean_dataframe_with o sc df)
  | .error e => .error ⟨.transformError, "Failed to transform data: " ++ e.msg⟩

/-- ProcessedCSV from src/app/conductor.py lines 31-45. -/
structure ProcessedCSV where
  filename : String
  data_type : Option DataType := none
  table : Option String := none
  df : Option Df := none
  rows_loaded : Nat := 0
  error : Option String := none

/-- The success property of ProcessedCSV: no error recorded. -/
def ProcessedCSV.success (p : ProcessedCSV) : Bool := p.error.isNone

/-- PipelineResult from src/app/conductor.py lines 48-54. -/
structure PipelineResult where
  processed : List ProcessedCSV := []
  total_rows : Nat := 0

/-- The string stored into ProcessedCSV.error (src/app/conductor.py lines
123-128): `str(e)` for a HawkeyeError, `f"Unexpected error: ..."` otherwise. -/
def errorString (e : PyExc) : String :=
  if e.cls.isHawkeyeError then e.msg else "Unexpected error: " ++ e.msg

/-- The external stages _process_single_csv calls whose behaviour lives outside
the engine: CSV parsing of the file's bytes (src/app/parser.py, pandas) and the
BigQuery load (network).  Detection and transformation are the engine's own
functions and are called directly. -/
structure Stages where
  parse : String → Except PyExc Df
  load : Df → DataType → String → Except PyExc Nat

/-- _process_single_csv (src/app/conductor.py lines 78-130): parse, detect,
transform, record data_type/table/df, then dry-run-count or load; any exception
from the stages is caught and converted to the error field, fields already
recorded staying recorded. -/
def _process_single_csv (o : ParseOracle) (st : Stages)
    (filename : String) (dry_run : Bool) : ProcessedCSV :=
  let p0 : ProcessedCSV := { filename := filename }
  match st.parse filename with
  | .error e => { p0 with error := some (errorString e) }
  | .ok df =>
    match detect_data_type (dfColumnNames df) with
    | .error e => { p0 with error := some (errorString e) }
    | .ok (dt, table) =>
      match clean_dataframe o dt df with
      | .error e => { p0 with error := some (errorString e) }
      | .ok df2 =>
        let p1 := { p0 with data_type := some dt, table := some table, df := some df2 }
        if dry_run then { p1 with rows_loaded := nRows df2 }
        else
          match st.load df2 dt table with
          | .error e => { p1 with error := some (errorString e) }
          | .ok rows => { p1 with rows_loaded := rows }

/-- The loop body of run (src/app/conductor.py lines 149-156): process one file,
append the entry, and add its rows_loaded to total_rows when it succeeded. -/
def conductorStep (o : ParseOracle) (st : Stages) (dry_run : Bool)
    (acc : PipelineResult) (fn : String) : PipelineResult :=
  let p := _process_single_csv o st fn dry_run
  { processed := acc.processed ++ [p],
    total_rows := acc.total_rows + (if p.success then p.rows_loaded else 0) }

/-- run (src/app/conductor.py lines 133-159) after the ZIP extraction: process
each file in order with `conductorStep`. -/
def conductorRun (o : ParseOracle) (st : Stages)
    (files : List String) (dry_run : Bool) : PipelineResult :=
  files.foldl (conductorStep o st dry_run) {}

/-- Concrete external stages for witnesses: three named inputs of which the
second has unrecognisable columns, and a loader that inserts nothing. -/
def exStages : Stages where
  parse fn :=
    if fn = "a.csv" then .ok [("Emitter Id", [.str "e1", .str "e2"])]
    else if fn = "b.csv" then .ok [("Unknown Col 1", [.str "u"])]
    else if fn = "c.csv" then .ok [("Emitter Id", [.str "e3", .str "e4", .str "e5"])]
    else .error ⟨.requestError, "Failed to parse CSV"⟩
  load _df _dt _table := .ok 0

/-- Helper for building concrete rows: the listed columns get the listed values,
every other column is null. -/
def mkRow (vals : List (String × Cell)) : Row :=
  fun c =>
    match vals.find? (fun p => p.1 = c) with
    | some p => p.2
    | none => Cell.null

/-- A concrete GPS row whose five dedup-key columns are all non-null. -/
def gpsKeyRow : Row :=
  mkRow [("orientation", .num 1), ("semi_major", .num 2), ("semi_minor", .num 3),
         ("event_time", .ts 100), ("event_date", .date 1)]

/-- Column list of a concrete GPS batch carrying exactly the dedup-key columns. -/
def gpsKeyColumns : List String :=
  ["orientation", "semi_major", "semi_minor", "event_time", "event_date"]

/-- A concrete staged Skytrace row whose textual dedup column entity_id holds the
empty string. -/
def skStagedRow : Row :=
  mkRow [("latitude", .num 1), ("longitude", .num 2), ("event_time", .ts 5),
         ("entity_id", .str "")]

/-- A concrete destination Skytrace row identical to `skStagedRow` except that
entity_id is null. -/
def skDestRow : Row :=
  mkRow [("latitude", .num 1), ("longitude", .num 2), ("event_time", .ts 5)]

/-- A row with every column null. -/
def allNullRow : Row := fun _ => Cell.null

/-- Steps 1-2 of clean_dataframe: drop then rename. -/
def steps12 (sc : SchemaConfig) (df : Df) : Df :=
  renameColumns sc.column_mapping (dropColumns sc.columns_to_drop df)

/-- Steps 1-6 of clean_dataframe: drop, rename, and the four coercion loops. -/
def steps16 (o : ParseOracle) (sc : SchemaConfig) (df : Df) : Df :=
  coerceAll sc.string_columns (strCoerce o)
    (coerceAll sc.int_columns (intCoerce o)
      (coerceAll sc.float_columns (floatCoerce o)
        (coerceAll sc.timestamp_columns (tsCoerce o) (steps12 sc df))))

/-- A concrete parse oracle for witnesses: it parses one timestamp literal, the
numeric literals used below, and is the identity on already-typed cells, failing
on everything else — as `errors="coerce"` does. -/
def oracle0 : ParseOracle where
  to_datetime_utc c :=
    match c with
    | .ts t => some t
    | .str "2024-01-15T10:30:00Z" => some 1705314600
    | _ => none
  to_datetime_naive c :=
    match c with
    | .str "2024-01-15T10:30:00Z" => some 1705314600
    | _ => none
  to_numeric c :=
    match c with
    | .num q => some q
    | .int n => some (n : Rat)
    | .str "7.0" => some 7
    | _ => none
  py_str c :=
    match c with
    | .str s => s
    | _ => "nan"

/-- A concrete two-row raw GPS table: each column has one parseable and one
unparseable cell. -/
def sampleRawDf : Df :=
  [("Event Time", [.str "2024-01-15T10:30:00Z", .str "bad"]),
   ("Id", [.str "7.0", .str "x"]),
   ("Lat", [.num 1, .str "y"])]

theorem findq_earliest {α : Type} (p : α → Bool) :
    ∀ (l : List α) (i : Nat) (hi : i < l.length), p (l.get ⟨i, hi⟩) = true →
      ∃ (k : Nat) (hk : k < l.length), k ≤ i ∧ p (l.get ⟨k, hk⟩) = true ∧
        (∀ (m : Nat) (hm : m < l.length), m < k → p (l.get ⟨m, hm⟩) = false) ∧
        l.find? p = some (l.get ⟨k, hk⟩)
  | [], i, hi, _ => absurd hi (Nat.not_lt_zero i)
  | a :: l, i, hi, hp => by
      by_cases ha : p a = true
      · refine ⟨0, Nat.succ_pos _, Nat.zero_le _, ha, ?_, ?_⟩
        · intro m hm hm0
          exact absurd hm0 (Nat.not_lt_zero m)
        · simp [List.find?_cons_of_pos _ ha]
      · match i, hi with
        | 0, _ => exact absurd hp ha
        | i + 1, hi =>
          obtain ⟨k, hk, hki, hpk, hleast, hfind⟩ :=
            findq_earliest p l i (Nat.lt_of_succ_lt_succ hi) hp
          refine ⟨k + 1, Nat.succ_lt_succ hk, Nat.succ_le_succ hki, hpk, ?_, ?_⟩
          · intro m hm hmk
            match m, hm with
            | 0, _ => exact Bool.eq_false_iff.mpr ha
            | m + 1, hm =>
              exact hleast m (Nat.lt_of_succ_lt_succ hm) (Nat.lt_of_succ_lt_succ hmk)
          · rw [List.find?_cons_of_neg _ ha]
            exact hfind

/-- C1: when the input column set intersects the signature sets of two or more
detection rules (positions i < j both match), detect_data_type returns the
record-type tag and destination table of the rule declared earliest in
DETECTION_RULES — the first rule with a non-empty intersection, every earlier
rule having an empty one — regardless of how later rules match. -/
theorem detect_first_rule_wins (columns : List String) (i j : Nat)
    (hi : i < DETECTION_RULES.length) (hj : j < DETECTION_RULES.length) (_hij : i < j)
    (hmi : ruleMatches columns (DETECTION_RULES.get ⟨i, hi⟩) = true)
    (_hmj : ruleMatches columns (DETECTION_RULES.get ⟨j, hj⟩) = true) :
    ∃ (k : Nat) (hk : k < DETECTION_RULES.length), k ≤ i ∧
      ruleMatches columns (DETECTION_RULES.get ⟨k, hk⟩) = true ∧
      (∀ (m : Nat) (hm : m < DETECTION_RULES.length), m < k →
        ruleMatches columns (DETECTION_RULES.get ⟨m, hm⟩) = false) ∧
      detect_data_type columns =
        .ok ((DETECTION_RULES.get ⟨k, hk⟩).dtype, (DETECTION_RULES.get ⟨k, hk⟩).table) := by
  obtain ⟨k, hk, hki, hpk, hleast, hfind⟩ :=
    findq_earliest (ruleMatches columns) DETECTION_RULES i hi hmi
  refine ⟨k, hk, hki, hpk, hleast, ?_⟩
  unfold detect_data_type
  rw [hfind]

/-- Witness for C1 at a concrete input: the columns intersect both the VHF rule
(position 4) and the GPS rule (position 5); the VHF rule, declared earlier, wins. -/
theorem detect_first_rule_wins_witness :
    detect_data_type ["Bandwidth", "Emitter Id"] = .ok (DataType.vhf, "vhf") := by
  obtain ⟨k, hk, hki, hmatch, hleast, heq⟩ :=
    detect_first_rule_wins ["Bandwidth", "Emitter Id"] 4 5 (by decide) (by decide)
      (by decide) (by decide) (by decide)
  interval_cases k
  all_goals simp only [DETECTION_RULES, List.get_eq_getElem, List.getElem_cons_succ,
    List.getElem_cons_zero, Fin.isValue] at hmatch heq ⊢
  · simp [ruleMatches] at hmatch
  · simp [ruleMatches] at hmatch
  · simp [ruleMatches] at hmatch
  · simp [ruleMatches] at hmatch
  · exact heq

/-- C6 (amended): a column set intersecting no detection rule's signature set
makes detect_data_type raise — a built-in ValueError, not the DetectionError
class of src/app/custom_exceptions.py — whose message names a sample (the first
ten) of the unmatched columns; any column set intersecting some rule's signature
set yields a tag and a destination table. -/
theorem detect_data_type_no_match (columns : List String) :
    ((∀ r ∈ DETECTION_RULES, ruleMatches columns r = false) →
      detect_data_type columns =
        .error ⟨ExcClass.valueError,
          "Cannot detect data type from columns: "
            ++ fmtColumns (columns.take 10) ++ "..."⟩)
    ∧ ((∃ r ∈ DETECTION_RULES, ruleMatches columns r = true) →
      ∃ dt table, detect_data_type columns = .ok (dt, table)) := by
  constructor
  · intro hall
    unfold detect_data_type
    have hnone : DETECTION_RULES.find? (ruleMatches columns) = none := by
      rw [List.find?_eq_none]
      intro r hr
      simp [hall r hr]
    rw [hnone]
  · intro hex
    have hsome : (DETECTION_RULES.find? (ruleMatches columns)).isSome := by
      rw [List.find?_isSome]
      obtain ⟨r, hr, hp⟩ := hex
      exact ⟨r, hr, hp⟩
    obtain ⟨r, hr⟩ := Option.isSome_iff_exists.mp hsome
    refine ⟨r.dtype, r.table, ?_⟩
    unfold detect_data_type
    rw [hr]

/-- Witness for C6 at concrete inputs: an unmatched column set yields the
ValueError with the column sample; a GPS-signature column set succeeds. -/
theorem detect_data_type_no_match_witness :
    (detect_data_type ["Unknown Col 1", "Unknown Col 2", "Random Data"] =
      .error ⟨ExcClass.valueError,
        "Cannot detect data type from columns: "
          ++ fmtColumns (["Unknown Col 1", "Unknown Col 2", "Random Data"].take 10)
          ++ "..."⟩)
    ∧ ∃ dt table,
        detect_data_type ["Event Time", "Emitter Id", "Country"] = .ok (dt, table) := by
  constructor
  · exact (detect_data_type_no_match ["Unknown Col 1", "Unknown Col 2", "Random Data"]).1
      (by decide)
  · exact (detect_data_type_no_match ["Event Time", "Emitter Id", "Country"]).2
      ⟨⟨.gps, ["Emitter Id", "Max Freq", "Min Freq"], "gps"⟩, by decide, by decide⟩

/-- Counterexample for C6 as stated: at a concrete unmatched column set the code
raises the built-in ValueError — which is not DetectionError, nor any
HawkeyeError subclass — so the claim that a DetectionError is raised is false. -/
theorem detect_error_class_cex :
    detect_data_type ["Unknown Col 1", "Unknown Col 2", "Random Data"] =
      .error ⟨ExcClass.valueError,
        "Cannot detect data type from columns: "
          ++ fmtColumns (["Unknown Col 1", "Unknown Col 2", "Random Data"].take 10)
          ++ "..."⟩
    ∧ ExcClass.valueError ≠ ExcClass.detectionError
    ∧ ExcClass.valueError.isHawkeyeError = false := by
  refine ⟨rfl, by decide, rfl⟩

theorem sqlEqCell_true_iff (a b : Cell) :
    sqlEqCell a b = true ↔ (a ≠ Cell.null ∧ a = b) := by
  cases a <;> cases b <;> simp [sqlEqCell]

theorem onCondHolds_nonstring (sc : SchemaConfig) (col : String) (t s : Row)
    (h : col ∈ non_string_columns sc) :
    onCondHolds sc col t s = sqlEqCell (t col) (s col) := by
  simp [onCondHolds, List.elem_eq_mem, h]

theorem onCondHolds_string (sc : SchemaConfig) (col : String) (t s : Row)
    (h : col ∉ non_string_columns sc) :
    onCondHolds sc col t s = decide (coalesceEmpty (t col) = coalesceEmpty (s col)) := by
  simp [onCondHolds, List.elem_eq_mem, h]

/-- C2: in the MERGE ON clause, every dedup-key column among the non-string
columns (floats, timestamps, integers, and the DATE partition field) compares by
exact SQL equality, under which null matches nothing — two rows both null there
never match, so they stay distinct — while every dedup-key column outside that
set (in particular every textual one; the last two conjuncts check that the
string columns of both retrievable schemas lie outside it) compares after
coalescing null to the empty string, so two rows both null in every such column
do match. -/
theorem dedup_key_null_comparison (sc : SchemaConfig) (t s : Row) :
    (∀ col ∈ sc.dedup_key, col ∈ non_string_columns sc →
      (onCondHolds sc col t s = true ↔ (t col ≠ Cell.null ∧ t col = s col)))
    ∧ (∀ col ∈ sc.dedup_key, col ∉ non_string_columns sc →
      (onCondHolds sc col t s = true ↔ coalesceEmpty (t col) = coalesceEmpty (s col)))
    ∧ (∀ col ∈ sc.dedup_key, col ∈ non_string_columns sc →
      t col = Cell.null → s col = Cell.null → rowMatches sc t s = false)
    ∧ ((∀ col ∈ sc.dedup_key, col ∉ non_string_columns sc) →
      (∀ col ∈ sc.dedup_key, t col = Cell.null ∧ s col = Cell.null) →
      rowMatches sc t s = true)
    ∧ (∀ c ∈ gpsSchema.string_columns, c ∉ non_string_columns gpsSchema)
    ∧ (∀ c ∈ skytraceSchema.string_columns, c ∉ non_string_columns skytraceSchema) := by
  refine ⟨?_, ?_, ?_, ?_, by decide, by decide⟩
  · intro col _ hns
    rw [onCondHolds_nonstring sc col t s hns]
    exact sqlEqCell_true_iff (t col) (s col)
  · intro col _ hns
    rw [onCondHolds_string sc col t s hns]
    exact decide_eq_true_iff
  · intro col hcol hns ht hs
    rcases hb : rowMatches sc t s with _ | _
    · rfl
    · exfalso
      have hone : onCondHolds sc col t s = true := by
        have := List.all_eq_true.mp hb col hcol
        simpa using this
      rw [onCondHolds_nonstring sc col t s hns] at hone
      obtain ⟨hnn, _⟩ := (sqlEqCell_true_iff _ _).mp hone
      exact hnn ht
  · intro hall hnull
    apply List.all_eq_true.mpr
    intro col hcol
    obtain ⟨ht, hs⟩ := hnull col hcol
    have := onCondHolds_string sc col t s (hall col hcol)
    simp [this, ht, hs]

/-- Witness for C2 at concrete Skytrace rows: two rows that are null in every
dedup-key column do not match (latitude, a float dedup column, blocks the
match), while the textual dedup column entity_id taken alone does compare two
nulls as equal. -/
theorem dedup_key_null_comparison_witness :
    rowMatches skytraceSchema allNullRow allNullRow = false
    ∧ onCondHolds skytraceSchema "entity_id" allNullRow allNullRow = true := by
  constructor
  · exact (dedup_key_null_comparison skytraceSchema allNullRow allNullRow).2.2.1
      "latitude" (by decide) (by decide) rfl rfl
  · exact ((dedup_key_null_comparison skytraceSchema allNullRow allNullRow).2.1
      "entity_id" (by decide) (by decide)).mpr rfl

/-- C10: a textual dedup-key cell holding the empty string is coalesced to the
same value as a null cell, so the ON-clause conjunct for that column holds in
both directions; when the remaining dedup-key columns also match, the staged row
matches the destination row and the MERGE skips it (it is not among the inserted
rows). -/
theorem textual_empty_string_matches_null (sc : SchemaConfig)
    (dest staging : List Row) (t s : Row) (col : String)
    (hcol : col ∈ sc.dedup_key) (hns : col ∉ non_string_columns sc)
    (hs : s col = Cell.str "") (ht : t col = Cell.null)
    (hrest : ∀ c ∈ sc.dedup_key, c ≠ col → onCondHolds sc c t s = true)
    (htdest : t ∈ dest) :
    onCondHolds sc col t s = true
    ∧ onCondHolds sc col s t = true
    ∧ rowMatches sc t s = true
    ∧ s ∉ mergeInsertNew sc dest staging := by
  have h1 : onCondHolds sc col t s = true := by
    rw [onCondHolds_string sc col t s hns]
    simp [ht, hs, coalesceEmpty]
  have h2 : onCondHolds sc col s t = true := by
    rw [onCondHolds_string sc col s t hns]
    simp [ht, hs, coalesceEmpty]
  have h3 : rowMatches sc t s = true := by
    apply List.all_eq_true.mpr
    intro c hcmem
    by_cases hceq : c = col
    · subst hceq
      simpa using h1
    · simpa using hrest c hcmem hceq
  refine ⟨h1, h2, h3, ?_⟩
  intro hmem
  have hpred := List.of_mem_filter hmem
  have hany : dest.any (fun u => rowMatches sc u s) = true :=
    List.any_eq_true.mpr ⟨t, htdest, h3⟩
  rw [hany] at hpred
  simp at hpred

/-- Witness for C10 at concrete Skytrace rows: the staged row with empty-string
entity_id matches the destination row with null entity_id and is skipped by the
merge. -/
theorem textual_empty_string_matches_null_witness :
    rowMatches skytraceSchema skDestRow skStagedRow = true
    ∧ skStagedRow ∉ mergeInsertNew skytraceSchema [skDestRow] [skStagedRow] := by
  have h := textual_empty_string_matches_null skytraceSchema [skDestRow] [skStagedRow]
    skDestRow skStagedRow "entity_id" (by decide) (by decide) rfl rfl
    (by decide) (List.mem_singleton.mpr rfl)
  exact ⟨h.2.2.1, h.2.2.2⟩

theorem load_to_bigquery_noFaults (sc : SchemaConfig) (dfColumns : List String)
    (dfRows : List Row) (st : BqTables) :
    load_to_bigquery sc true dfColumns dfRows st noFaults =
      ⟨.ok (mergeInsertNew sc st.dest
          (dfRows.map (projectRow (filter_schema_to_dataframe sc.bigquery_schema dfColumns)))).length,
        st.dest ++ mergeInsertNew sc st.dest
          (dfRows.map (projectRow (filter_schema_to_dataframe sc.bigquery_schema dfColumns))),
        none⟩ := rfl

theorem rowMatches_self (sc : SchemaConfig) (s : Row)
    (h : ∀ col ∈ sc.dedup_key, col ∈ non_string_columns sc → s col ≠ Cell.null) :
    rowMatches sc s s = true := by
  apply List.all_eq_true.mpr
  intro col hcol
  by_cases hns : col ∈ non_string_columns sc
  · rw [onCondHolds_nonstring sc col s s hns]
    exact (sqlEqCell_true_iff _ _).mpr ⟨h col hcol hns, rfl⟩
  · rw [onCondHolds_string sc col s s hns]
    simp

/-- C5 (amended): against an initially empty destination, and for a batch whose
dedup-key columns all survive the schema projection and are non-null in every
non-string key column, the first load stages every row and inserts all of them —
the MERGE compares staged rows against the destination only, so intra-batch
duplicate keys are not collapsed and the count is the batch size, which equals
the number of distinct-keyed rows exactly when the batch keys are pairwise
distinct — and loading the same batch a second time inserts 0 rows; on every
load the upsert appends exactly the unmatched staged rows to the destination and
never changes existing destination rows. -/
theorem load_twice_inserts_then_zero (sc : SchemaConfig) (dfColumns : List String)
    (dfRows : List Row)
    (hkeys : ∀ col ∈ sc.dedup_key,
      col ∈ filter_schema_to_dataframe sc.bigquery_schema dfColumns)
    (hnonnull : ∀ r ∈ dfRows, ∀ col ∈ sc.dedup_key,
      col ∈ non_string_columns sc → r col ≠ Cell.null) :
    (load_to_bigquery sc true dfColumns dfRows ⟨[], none⟩ noFaults).outcome
        = .ok dfRows.length
    ∧ (load_to_bigquery sc true dfColumns dfRows ⟨[], none⟩ noFaults).dest
        = dfRows.map (projectRow (filter_schema_to_dataframe sc.bigquery_schema dfColumns))
    ∧ (load_to_bigquery sc true dfColumns dfRows
        ⟨(load_to_bigquery sc true dfColumns dfRows ⟨[], none⟩ noFaults).dest, none⟩
        noFaults).outcome = .ok 0
    ∧ ∀ (dest : List Row) (staging : Option (List Row)),
        (load_to_bigquery sc true dfColumns dfRows ⟨dest, staging⟩ noFaults).dest
          = dest ++ mergeInsertNew sc dest
              (dfRows.map (projectRow (filter_schema_to_dataframe sc.bigquery_schema dfColumns))) := by
  have hproj : ∀ r ∈ dfRows, ∀ col ∈ sc.dedup_key,
      projectRow (filter_schema_to_dataframe sc.bigquery_schema dfColumns) r col = r col := by
    intro r _ col hcol
    simp [projectRow, List.elem_eq_mem, hkeys col hcol]
  have hempty : mergeInsertNew sc []
      (dfRows.map (projectRow (filter_schema_to_dataframe sc.bigquery_schema dfColumns)))
      = dfRows.map (projectRow (filter_schema_to_dataframe sc.bigquery_schema dfColumns)) := by
    simp [mergeInsertNew]
  have hself : ∀ s ∈ dfRows.map (projectRow (filter_schema_to_dataframe sc.bigquery_schema dfColumns)),
      rowMatches sc s s = true := by
    intro s hs
    obtain ⟨r, hr, rfl⟩ := List.mem_map.mp hs
    apply rowMatches_self
    intro col hcol hns
    rw [hproj r hr col hcol]
    exact hnonnull r hr col hcol hns
  refine ⟨?_, ?_, ?_, ?_⟩
  · rw [load_to_bigquery_noFaults]
    simp [hempty]
  · rw [load_to_bigquery_noFaults]
    simp [hempty]
  · rw [load_to_bigquery_noFaults, load_to_bigquery_noFaults]
    simp only [hempty, List.nil_append]
    have hzero : mergeInsertNew sc
        (dfRows.map (projectRow (filter_schema_to_dataframe sc.bigquery_schema dfColumns)))
        (dfRows.map (projectRow (filter_schema_to_dataframe sc.bigquery_schema dfColumns)))
        = [] := by
      apply List.filter_eq_nil_iff.mpr
      intro s hs
      have hany : (dfRows.map (projectRow (filter_schema_to_dataframe sc.bigquery_schema dfColumns))).any
          (fun t => rowMatches sc t s) = true :=
        List.any_eq_true.mpr ⟨s, hs, hself s hs⟩
      simp [hany]
    simp [hzero]
  · intro dest staging
    rw [load_to_bigquery_noFaults]

/-- Witness for C5 at a concrete one-row GPS batch with all five dedup-key
columns present and non-null: the first load against an empty destination
inserts 1 row and the second load inserts 0. -/
theorem load_twice_inserts_then_zero_witness :
    (load_to_bigquery gpsSchema true gpsKeyColumns [gpsKeyRow] ⟨[], none⟩ noFaults).outcome
        = .ok 1
    ∧ (load_to_bigquery gpsSchema true gpsKeyColumns [gpsKeyRow]
        ⟨(load_to_bigquery gpsSchema true gpsKeyColumns [gpsKeyRow] ⟨[], none⟩ noFaults).dest,
          none⟩ noFaults).outcome = .ok 0 := by
  have h := load_twice_inserts_then_zero gpsSchema gpsKeyColumns [gpsKeyRow]
    (by decide) (by decide)
  exact ⟨h.1, h.2.2.1⟩

/-- Counterexample for C5 as stated: a GPS batch of two rows with identical,
fully non-null dedup-key tuples has one distinct-keyed row, yet the first load
against an empty destination inserts 2 rows — the MERGE checks staged rows only
against the destination, so intra-batch duplicates are all inserted. -/
theorem load_first_insert_count_cex :
    (load_to_bigquery gpsSchema true gpsKeyColumns [gpsKeyRow, gpsKeyRow]
      ⟨[], none⟩ noFaults).outcome = .ok 2
    ∧ distinctKeyCount gpsSchema [gpsKeyRow, gpsKeyRow] = 1
    ∧ (2 : Nat) ≠ 1 := by
  refine ⟨rfl, rfl, by decide⟩

/-- C7 (amended): the staging table is deleted only on the all-success path —
whenever the call returns a row count, the staging table is gone; a staging-load
failure leaves the prior staging area untouched and an upsert failure leaves the
freshly staged rows behind; but a failure of the cleanup deletion itself is NOT
non-fatal: it propagates out of the try block as a LoadError, so a call whose
merge succeeded (the destination keeps the inserted rows) reports an error
instead of the inserted row count. -/
theorem staging_cleanup_semantics (sc : SchemaConfig) (dfColumns : List String)
    (dfRows : List Row) (dest0 : List Row) (staging0 : Option (List Row)) :
    (∀ (f : LoadFaults) (n : Nat),
      (load_to_bigquery sc true dfColumns dfRows ⟨dest0, staging0⟩ f).outcome = .ok n →
      (load_to_bigquery sc true dfColumns dfRows ⟨dest0, staging0⟩ f).staging = none)
    ∧ (∀ (m c : Bool),
      (load_to_bigquery sc true dfColumns dfRows ⟨dest0, staging0⟩
        ⟨false, true, m, c⟩).staging = staging0)
    ∧ (∀ (c : Bool),
      (load_to_bigquery sc true dfColumns dfRows ⟨dest0, staging0⟩
        ⟨false, false, true, c⟩).staging
        = some (dfRows.map (projectRow (filter_schema_to_dataframe sc.bigquery_schema dfColumns))))
    ∧ ((load_to_bigquery sc true dfColumns dfRows ⟨dest0, staging0⟩
        ⟨false, false, false, true⟩).outcome
        = .error (loadErrorWrap "staging cleanup failed")
      ∧ (load_to_bigquery sc true dfColumns dfRows ⟨dest0, staging0⟩
          ⟨false, false, false, true⟩).dest
        = dest0 ++ mergeInsertNew sc dest0
            (dfRows.map (projectRow (filter_schema_to_dataframe sc.bigquery_schema dfColumns)))) := by
  refine ⟨?_, ?_, ?_, rfl, rfl⟩
  · rintro ⟨e, s, m, c⟩ n hok
    cases e <;> cases s <;> cases m <;> cases c <;>
      simp_all [load_to_bigquery]
  · intro m c
    rfl
  · intro c
    rfl

/-- Witness for C7 at a concrete GPS load: on the faultless path the outcome is
a row count and the staging table is deleted. -/
theorem staging_cleanup_semantics_witness :
    (load_to_bigquery gpsSchema true gpsKeyColumns [gpsKeyRow] ⟨[], none⟩ noFaults).staging
      = none := by
  exact (staging_cleanup_semantics gpsSchema gpsKeyColumns [gpsKeyRow] [] none).1
    noFaults 1 rfl

/-- Counterexample for C7 as stated: at a concrete load in which only the
staging-table deletion fails, the merge has succeeded (the destination holds the
inserted row) yet load_to_bigquery raises a LoadError instead of reporting the
inserted row count — cleanup failure is fatal to the call. -/
theorem cleanup_failure_fatal_cex :
    (load_to_bigquery gpsSchema true gpsKeyColumns [gpsKeyRow] ⟨[], none⟩
      ⟨false, false, false, true⟩).outcome
      = .error (loadErrorWrap "staging cleanup failed")
    ∧ (load_to_bigquery gpsSchema true gpsKeyColumns [gpsKeyRow] ⟨[], none⟩
        ⟨false, false, false, true⟩).dest.length = 1 := by
  exact ⟨rfl, rfl⟩

theorem getColCells_cons (x : String × List Cell) (df : Df) (col : String) :
    getColCells (x :: df) col = if x.1 = col then x.2 else getColCells df col := by
  unfold getColCells
  by_cases h : x.1 = col
  · rw [List.find?_cons_of_pos _ (by simp [h]), if_pos h]
  · rw [List.find?_cons_of_neg _ (by simp [h]), if_neg h]

theorem find?_append_of_none {α : Type} (l1 l2 : List α) (p : α → Bool)
    (h : l1.find? p = none) : (l1 ++ l2).find? p = l2.find? p := by
  induction l1 with
  | nil => simp
  | cons a l ih =>
    rcases ha : p a with _ | _
    · rw [List.cons_append, List.find?_cons_of_neg _ (by simp [ha])]
      rw [List.find?_cons_of_neg _ (by simp [ha])] at h
      exact ih h
    · rw [List.find?_cons_of_pos _ ha] at h
      exact absurd h (by simp)

theorem getColCells_append_single (df : Df) (y : String × List Cell) (col : String)
    (hy : ¬ y.1 = col) : getColCells (df ++ [y]) col = getColCells df col := by
  induction df with
  | nil => simp [getColCells_cons, hy, getColCells]
  | cons x df ih =>
    rw [List.cons_append, getColCells_cons, getColCells_cons]
    by_cases hx : x.1 = col
    · simp [hx]
    · simp [hx, ih]

theorem getCol_mapReplace_self (df : Df) (name : String) (cells : List Cell)
    (h : df.any (fun c => c.1 = name) = true) :
    getColCells (df.map (fun c => if c.1 = name then (name, cells) else c)) name
      = cells := by
  induction df with
  | nil => simp at h
  | cons x df ih =>
    rw [List.map_cons, getColCells_cons]
    by_cases hx : x.1 = name
    · rw [if_pos hx]
      simp
    · rw [if_neg hx, if_neg (by simpa using hx)]
      apply ih
      rcases List.any_eq_true.mp h with ⟨c, hc, hcn⟩
      rcases List.mem_cons.mp hc with rfl | hc2
      · exact absurd (by simpa using hcn) hx
      · exact List.any_eq_true.mpr ⟨c, hc2, hcn⟩

theorem getCol_mapReplace_other (df : Df) (name : String) (cells : List Cell)
    (col : String) (hcol : ¬ col = name) :
    getColCells (df.map (fun c => if c.1 = name then (name, cells) else c)) col
      = getColCells df col := by
  induction df with
  | nil => rfl
  | cons x df ih =>
    rw [List.map_cons, getColCells_cons, getColCells_cons]
    by_cases hx : x.1 = name
    · have h1 : ¬ name = col := fun hh => hcol hh.symm
      have h2 : ¬ x.1 = col := fun hh => hcol (hh.symm.trans hx)
      rw [if_pos hx]
      simp [h1, h2, ih]
    · rw [if_neg hx]
      by_cases hxc : x.1 = col
      · simp [hxc]
      · simp [hxc, ih]

theorem getColCells_setCol_self (df : Df) (name : String) (cells : List Cell) :
    getColCells (setCol df name cells) name = cells := by
  unfold setCol
  split_ifs with h
  · exact getCol_mapReplace_self df name cells h
  · have hfind : df.find? (fun c => c.1 = name) = none := by
      rw [List.find?_eq_none]
      intro c hc
      simp only [Bool.not_eq_true, decide_eq_false_iff_not]
      intro hcc
      exact h (List.any_eq_true.mpr ⟨c, hc, by simp [hcc]⟩)
    rw [getColCells, find?_append_of_none _ _ _ hfind,
      List.find?_cons_of_pos _ (by simp)]

theorem getColCells_setCol_other (df : Df) (name : String) (cells : List Cell)
    (col : String) (hcol : ¬ col = name) :
    getColCells (setCol df name cells) col = getColCells df col := by
  unfold setCol
  split_ifs with h
  · exact getCol_mapReplace_other df name cells col hcol
  · exact getColCells_append_single df (name, cells) col (fun hh => hcol hh.symm)

theorem mem_names_setCol_self (df : Df) (name : String) (cells : List Cell) :
    name ∈ dfColumnNames (setCol df name cells) := by
  unfold setCol
  split_ifs with h
  · obtain ⟨c, hc, hcn⟩ := List.any_eq_true.mp h
    have hcn2 : c.1 = name := by simpa using hcn
    apply List.mem_map.mpr
    exact ⟨(name, cells), List.mem_map.mpr ⟨c, hc, by simp [hcn2]⟩, rfl⟩
  · unfold dfColumnNames
    simp

theorem coerceAll_cons (n : String) (ns : List String) (f : Cell → Cell) (df : Df) :
    coerceAll (n :: ns) f df = coerceAll ns f (coerceColumn n f df) := rfl

theorem dfColumnNames_coerceColumn (n : String) (f : Cell → Cell) (df : Df) :
    dfColumnNames (coerceColumn n f df) = dfColumnNames df := by
  unfold dfColumnNames coerceColumn
  rw [List.map_map]
  apply List.map_eq_map_iff.mpr
  intro c _
  by_cases h : c.1 = n <;> simp [h]

theorem dfColumnNames_coerceAll (f : Cell → Cell) :
    ∀ (names : List String) (df : Df),
      dfColumnNames (coerceAll names f df) = dfColumnNames df
  | [], _ => rfl
  | n :: ns, df => by
    rw [coerceAll_cons, dfColumnNames_coerceAll f ns (coerceColumn n f df),
      dfColumnNames_coerceColumn]

theorem getColCells_coerceColumn (n : String) (f : Cell → Cell) (df : Df) (col : String) :
    getColCells (coerceColumn n f df) col
      = if n = col then (getColCells df col).map f else getColCells df col := by
  induction df with
  | nil => by_cases h : n = col <;> simp [coerceColumn, getColCells, h]
  | cons x df ih =>
    rw [show coerceColumn n f (x :: df)
        = (if x.1 = n then (x.1, x.2.map f) else x) :: coerceColumn n f df from rfl]
    rw [getColCells_cons, getColCells_cons]
    by_cases hx : x.1 = n
    · rw [if_pos hx]
      by_cases hxc : x.1 = col
      · have hnc : n = col := hx.symm.trans hxc
        simp [hxc, hnc]
      · have hnc : ¬ n = col := fun h => hxc (hx.trans h)
        simp [hxc, hnc, ih]
    · rw [if_neg hx]
      by_cases hxc : x.1 = col
      · have hnc : ¬ n = col := fun h => hx (hxc.trans h.symm)
        simp [hxc, hnc]
      · simp [hxc, ih]

theorem getColCells_coerceAll_not_mem (f : Cell → Cell) (col : String) :
    ∀ (names : List String) (df : Df), col ∉ names →
      getColCells (coerceAll names f df) col = getColCells df col
  | [], _, _ => rfl
  | n :: ns, df, h => by
    rw [coerceAll_cons,
      getColCells_coerceAll_not_mem f col ns (coerceColumn n f df)
        (fun hm => h (List.mem_cons_of_mem _ hm)),
      getColCells_coerceColumn,
      if_neg (fun he => h (by rw [← he]; exact List.mem_cons_self n ns))]

theorem getColCells_coerceAll_mem (f : Cell → Cell) (col : String) :
    ∀ (names : List String) (df : Df), names.Nodup → col ∈ names →
      getColCells (coerceAll names f df) col = (getColCells df col).map f
  | [], _, _, hmem => absurd hmem (List.not_mem_nil col)
  | n :: ns, df, hnd, hmem => by
    rw [coerceAll_cons]
    by_cases hc : col = n
    · subst hc
      rw [getColCells_coerceAll_not_mem f col ns _ (List.nodup_cons.mp hnd).1,
        getColCells_coerceColumn, if_pos rfl]
    · have hin : col ∈ ns := (List.mem_cons.mp hmem).resolve_left hc
      rw [getColCells_coerceAll_mem f col ns (coerceColumn n f df)
        (List.nodup_cons.mp hnd).2 hin,
        getColCells_coerceColumn, if_neg (fun he => hc he.symm)]

theorem rect_dropColumns (bad : List String) (df : Df) (n : Nat)
    (h : Rectangular df n) : Rectangular (dropColumns bad df) n :=
  fun c hc => h c (List.mem_of_mem_filter hc)

theorem rect_renameColumns (m : List (String × String)) (df : Df) (n : Nat)
    (h : Rectangular df n) : Rectangular (renameColumns m df) n := by
  intro c hc
  obtain ⟨c0, hc0, rfl⟩ := List.mem_map.mp hc
  exact h c0 hc0

theorem rect_coerceColumn (name : String) (f : Cell → Cell) (df : Df) (n : Nat)
    (h : Rectangular df n) : Rectangular (coerceColumn name f df) n := by
  intro c hc
  obtain ⟨c0, hc0, rfl⟩ := List.mem_map.mp hc
  by_cases hx : c0.1 = name <;> simp [hx, h c0 hc0]

theorem rect_coerceAll (f : Cell → Cell) (n : Nat) :
    ∀ (names : List String) (df : Df), Rectangular df n →
      Rectangular (coerceAll names f df) n
  | [], _, h => h
  | n0 :: ns, df, h => by
    rw [coerceAll_cons]
    exact rect_coerceAll f n ns _ (rect_coerceColumn n0 f df n h)

theorem getColCells_length (df : Df) (n : Nat) (name : String)
    (hr : Rectangular df n) (hmem : name ∈ dfColumnNames df) :
    (getColCells df name).length = n := by
  obtain ⟨c, hc, hcn⟩ := List.mem_map.mp hmem
  have hfind : (df.find? (fun c => c.1 = name)).isSome := by
    exact List.find?_isSome.mpr ⟨c, hc, by simp [hcn]⟩
  obtain ⟨c2, hc2⟩ := Option.isSome_iff_exists.mp hfind
  rw [getColCells, hc2]
  exact hr c2 (List.mem_of_find?_eq_some hc2)

theorem rect_setCol (df : Df) (name : String) (cells : List Cell) (n : Nat)
    (h : Rectangular df n) (hc : cells.length = n) :
    Rectangular (setCol df name cells) n := by
  intro c hcm
  unfold setCol at hcm
  split_ifs at hcm with hany
  · obtain ⟨c0, hc0, rfl⟩ := List.mem_map.mp hcm
    by_cases hx : c0.1 = name <;> simp [hx, h c0 hc0, hc]
  · rcases List.mem_append.mp hcm with hl | hr2
    · exact h c hl
    · rw [List.mem_singleton.mp hr2]
      exact hc

theorem clean_dataframe_with_eq (o : ParseOracle) (sc : SchemaConfig) (df : Df) :
    clean_dataframe_with o sc df
      = if (dfColumnNames (steps16 o sc df)).contains "event_time" then
          setCol (steps16 o sc df) "event_date"
            ((getColCells (steps16 o sc df) "event_time").map (eventDateCell o))
        else steps16 o sc df := rfl

theorem rect_clean_dataframe_with (o : ParseOracle) (sc : SchemaConfig) (df : Df)
    (n : Nat) (h : Rectangular df n) :
    Rectangular (clean_dataframe_with o sc df) n := by
  have h16 : Rectangular (steps16 o sc df) n :=
    rect_coerceAll _ _ _ _ (rect_coerceAll _ _ _ _ (rect_coerceAll _ _ _ _
      (rect_coerceAll _ _ _ _ (rect_renameColumns _ _ _
        (rect_dropColumns _ _ _ h)))))
  rw [clean_dataframe_with_eq]
  split_ifs with hev
  · apply rect_setCol _ _ _ _ h16
    rw [List.length_map]
    exact getColCells_length _ _ _ h16 (by simpa [List.elem_eq_mem] using hev)
  · exact h16

theorem rat_floor_eq_intFloor (q : Rat) : (q.floor : Int) = ⌊q⌋ := by
  rw [Rat.floor_def, Rat.floor_def']

theorem roundHalfEven_nearest (q : Rat) :
    |((roundHalfEven q : Int) : Rat) - q| ≤ 1/2 := by
  have h1 : ((⌊q⌋ : Int) : Rat) ≤ q := Int.floor_le q
  have h2 : q < (⌊q⌋ : Rat) + 1 := Int.lt_floor_add_one q
  simp only [roundHalfEven, rat_floor_eq_intFloor]
  split_ifs with ha hb hc
  · rw [abs_le]
    constructor <;> linarith
  · rw [abs_le, Int.cast_add, Int.cast_one]
    constructor <;> linarith
  · rw [abs_le]
    constructor <;> linarith
  · rw [abs_le, Int.cast_add, Int.cast_one]
    constructor <;> linarith

theorem roundHalfEven_intCast (m : Int) : roundHalfEven ((m : Int) : Rat) = m := by
  simp only [roundHalfEven, rat_floor_eq_intFloor, Int.floor_intCast]
  norm_num

theorem clean_ts_column (o : ParseOracle) (sc : SchemaConfig) (df : Df) (col : String)
    (hmem : col ∈ sc.timestamp_columns) (hnd : sc.timestamp_columns.Nodup)
    (hf : col ∉ sc.float_columns) (hi : col ∉ sc.int_columns)
    (hs : col ∉ sc.string_columns) (hed : col ≠ "event_date") :
    getColCells (clean_dataframe_with o sc df) col
      = (getColCells (steps12 sc df) col).map (tsCoerce o) := by
  have hchain : getColCells (steps16 o sc df) col
      = (getColCells (steps12 sc df) col).map (tsCoerce o) := by
    unfold steps16
    rw [getColCells_coerceAll_not_mem (strCoerce o) col sc.string_columns _ hs,
      getColCells_coerceAll_not_mem (intCoerce o) col sc.int_columns _ hi,
      getColCells_coerceAll_not_mem (floatCoerce o) col sc.float_columns _ hf,
      getColCells_coerceAll_mem (tsCoerce o) col sc.timestamp_columns _ hnd hmem]
  rw [clean_dataframe_with_eq]
  split_ifs with hev
  · rw [getColCells_setCol_other _ _ _ _ hed]
    exact hchain
  · exact hchain

theorem clean_float_column (o : ParseOracle) (sc : SchemaConfig) (df : Df) (col : String)
    (hmem : col ∈ sc.float_columns) (hnd : sc.float_columns.Nodup)
    (ht : col ∉ sc.timestamp_columns) (hi : col ∉ sc.int_columns)
    (hs : col ∉ sc.string_columns) (hed : col ≠ "event_date") :
    getColCells (clean_dataframe_with o sc df) col
      = (getColCells (steps12 sc df) col).map (floatCoerce o) := by
  have hchain : getColCells (steps16 o sc df) col
      = (getColCells (steps12 sc df) col).map (floatCoerce o) := by
    unfold steps16
    rw [getColCells_coerceAll_not_mem (strCoerce o) col sc.string_columns _ hs,
      getColCells_coerceAll_not_mem (intCoerce o) col sc.int_columns _ hi,
      getColCells_coerceAll_mem (floatCoerce o) col sc.float_columns _ hnd hmem,
      getColCells_coerceAll_not_mem (tsCoerce o) col sc.timestamp_columns _ ht]
  rw [clean_dataframe_with_eq]
  split_ifs with hev
  · rw [getColCells_setCol_other _ _ _ _ hed]
    exact hchain
  · exact hchain

theorem clean_int_column (o : ParseOracle) (sc : SchemaConfig) (df : Df) (col : String)
    (hmem : col ∈ sc.int_columns) (hnd : sc.int_columns.Nodup)
    (ht : col ∉ sc.timestamp_columns) (hf : col ∉ sc.float_columns)
    (hs : col ∉ sc.string_columns) (hed : col ≠ "event_date") :
    getColCells (clean_dataframe_with o sc df) col
      = (getColCells (steps12 sc df) col).map (intCoerce o) := by
  have hchain : getColCells (steps16 o sc df) col
      = (getColCells (steps12 sc df) col).map (intCoerce o) := by
    unfold steps16
    rw [getColCells_coerceAll_not_mem (strCoerce o) col sc.string_columns _ hs,
      getColCells_coerceAll_mem (intCoerce o) col sc.int_columns _ hnd hmem,
      getColCells_coerceAll_not_mem (floatCoerce o) col sc.float_columns _ hf,
      getColCells_coerceAll_not_mem (tsCoerce o) col sc.timestamp_columns _ ht]
  rw [clean_dataframe_with_eq]
  split_ifs with hev
  · rw [getColCells_setCol_other _ _ _ _ hed]
    exact hchain
  · exact hchain

/-- C4: the per-cell type coercions of transform never raise and never discard a
row: for each present timestamp, float and integer column (listed for exactly
that coercion and untouched by the others), every output cell is the coercion of
the corresponding cell after drop/rename, where a failed parse yields null (the
coercion functions are total with null on parse failure); the transformed frame
keeps every row of the input; and transform returns a result, not an error, for
a retrievable schema, whatever the cell contents. -/
theorem per_cell_coercion_total (o : ParseOracle) (sc : SchemaConfig) (df : Df)
    (col : String) (n : Nat) :
    (col ∈ sc.timestamp_columns → sc.timestamp_columns.Nodup →
     col ∉ sc.float_columns → col ∉ sc.int_columns → col ∉ sc.string_columns →
     col ≠ "event_date" →
      getColCells (clean_dataframe_with o sc df) col
        = (getColCells (steps12 sc df) col).map (tsCoerce o))
    ∧ (col ∈ sc.float_columns → sc.float_columns.Nodup →
       col ∉ sc.timestamp_columns → col ∉ sc.int_columns → col ∉ sc.string_columns →
       col ≠ "event_date" →
      getColCells (clean_dataframe_with o sc df) col
        = (getColCells (steps12 sc df) col).map (floatCoerce o))
    ∧ (col ∈ sc.int_columns → sc.int_columns.Nodup →
       col ∉ sc.timestamp_columns → col ∉ sc.float_columns → col ∉ sc.string_columns →
       col ≠ "event_date" →
      getColCells (clean_dataframe_with o sc df) col
        = (getColCells (steps12 sc df) col).map (intCoerce o))
    ∧ (∀ c : Cell, o.to_datetime_utc c = none → tsCoerce o c = Cell.null)
    ∧ (∀ c : Cell, o.to_numeric c = none →
        floatCoerce o c = Cell.null ∧ intCoerce o c = Cell.null)
    ∧ (Rectangular df n → Rectangular (clean_dataframe_with o sc df) n)
    ∧ clean_dataframe o DataType.gps df = .ok (clean_dataframe_with o gpsSchema df) := by
  refine ⟨?_, ?_, ?_, ?_, ?_, ?_, rfl⟩
  · intro hmem hnd hf hi hs hed
    exact clean_ts_column o sc df col hmem hnd hf hi hs hed
  · intro hmem hnd ht hi hs hed
    exact clean_float_column o sc df col hmem hnd ht hi hs hed
  · intro hmem hnd ht hf hs hed
    exact clean_int_column o sc df col hmem hnd ht hf hs hed
  · intro c h
    simp [tsCoerce, h]
  · intro c h
    exact ⟨by simp [floatCoerce, h], by simp [intCoerce, h]⟩
  · exact rect_clean_dataframe_with o sc df n

/-- Witness for C4 at the concrete GPS table: the timestamp column event_time
and the integer column id each keep their parseable cell and turn their
unparseable cell into null, and both rows survive. -/
theorem per_cell_coercion_total_witness :
    getColCells (clean_dataframe_with oracle0 gpsSchema sampleRawDf) "event_time"
      = [Cell.ts 1705314600, Cell.null]
    ∧ getColCells (clean_dataframe_with oracle0 gpsSchema sampleRawDf) "id"
      = [Cell.int 7, Cell.null]
    ∧ Rectangular (clean_dataframe_with oracle0 gpsSchema sampleRawDf) 2 := by
  have h := per_cell_coercion_total oracle0 gpsSchema sampleRawDf "event_time" 2
  have h2 := per_cell_coercion_total oracle0 gpsSchema sampleRawDf "id" 2
  have h7 : roundHalfEven (7 : Rat) = 7 := by
    rw [show (7 : Rat) = ((7 : Int) : Rat) from by norm_num]
    exact roundHalfEven_intCast 7
  refine ⟨?_, ?_, ?_⟩
  · exact (h.1 (by decide) (by decide) (by decide) (by decide) (by decide)
      (by decide)).trans (by decide)
  · refine (h2.2.2.1 (by decide) (by decide) (by decide) (by decide) (by decide)
      (by decide)).trans ?_
    rw [show getColCells (steps12 gpsSchema sampleRawDf) "id"
        = [Cell.str "7.0", Cell.str "x"] from by decide]
    simp [intCoerce, oracle0, h7]
  · apply h.2.2.2.2.2.1
    intro c hc
    rcases List.mem_cons.mp hc with rfl | hc
    · rfl
    rcases List.mem_cons.mp hc with rfl | hc
    · rfl
    rcases List.mem_cons.mp hc with rfl | hc
    · rfl
    · cases hc

/-- C9: for a present int_columns entry, each output cell parses the post-rename
cell to a number, rounds it with round-half-to-even (numpy rounding), and stores
the integer, null on parse failure; the rounded value is always a nearest
integer (distance at most one half), and an integer-valued number is stored
unchanged — so a float-typed "7.0" becomes the integer 7. -/
theorem int_column_rounding (o : ParseOracle) (sc : SchemaConfig) (df : Df)
    (col : String)
    (hmem : col ∈ sc.int_columns) (hnd : sc.int_columns.Nodup)
    (hts : col ∉ sc.timestamp_columns) (hfl : col ∉ sc.float_columns)
    (hstr : col ∉ sc.string_columns) (hed : col ≠ "event_date") :
    getColCells (clean_dataframe_with o sc df) col
      = (getColCells (steps12 sc df) col).map
          (fun c =>
            match o.to_numeric c with
            | some q => Cell.int (roundHalfEven q)
            | none => Cell.null)
    ∧ (∀ q : Rat, |((roundHalfEven q : Int) : Rat) - q| ≤ 1/2)
    ∧ (∀ m : Int, roundHalfEven ((m : Int) : Rat) = m) := by
  refine ⟨?_, ?_, ?_⟩
  · exact clean_int_column o sc df col hmem hnd hts hfl hstr hed
  · exact roundHalfEven_nearest
  · exact roundHalfEven_intCast

/-- Witness for C9 at the concrete GPS table: the id cell "7.0" is stored as the
integer 7 and the unparseable cell as null; the nearest-integer bound holds at
five halves and rounding is the identity on the integer 7. -/
theorem int_column_rounding_witness :
    getColCells (clean_dataframe_with oracle0 gpsSchema sampleRawDf) "id"
      = [Cell.int 7, Cell.null]
    ∧ |((roundHalfEven (5/2 : Rat) : Int) : Rat) - 5/2| ≤ 1/2
    ∧ roundHalfEven ((7 : Int) : Rat) = 7 := by
  have h := int_column_rounding oracle0 gpsSchema sampleRawDf "id"
    (by decide) (by decide) (by decide) (by decide) (by decide) (by decide)
  have h7 : roundHalfEven (7 : Rat) = 7 := by
    rw [show (7 : Rat) = ((7 : Int) : Rat) from by norm_num]
    exact roundHalfEven_intCast 7
  refine ⟨h.1.trans ?_, h.2.1 (5/2), h.2.2 7⟩
  rw [show getColCells (steps12 gpsSchema sampleRawDf) "id"
      = [Cell.str "7.0", Cell.str "x"] from by decide]
  simp [oracle0, h7]

/-- C8: when a column named event_time exists after drop and rename (it is a
declared timestamp column, as it is in every schema get_schema can return —
third conjunct), transform adds an event_date column whose cell in each row is
the UTC calendar day of the row's parsed event_time, and null where the parse
fails; when no event_time column exists after those steps, the transformed frame
has exactly the columns of the dropped-and-renamed frame — no partition column
is added. -/
theorem event_date_partition (o : ParseOracle) (sc : SchemaConfig) (df : Df)
    (hmem : "event_time" ∈ sc.timestamp_columns) (hnd : sc.timestamp_columns.Nodup)
    (hfl : "event_time" ∉ sc.float_columns) (hint : "event_time" ∉ sc.int_columns)
    (hstr : "event_time" ∉ sc.string_columns) :
    ("event_time" ∈ dfColumnNames (steps12 sc df) →
      "event_date" ∈ dfColumnNames (clean_dataframe_with o sc df)
      ∧ getColCells (clean_dataframe_with o sc df) "event_date"
          = (getColCells (steps12 sc df) "event_time").map
              (fun c =>
                match o.to_datetime_utc c with
                | some t => Cell.date (utcDay t)
                | none => Cell.null))
    ∧ ("event_time" ∉ dfColumnNames (steps12 sc df) →
      dfColumnNames (clean_dataframe_with o sc df) = dfColumnNames (steps12 sc df))
    ∧ (∀ (dt : DataType) (sc2 : SchemaConfig), get_schema dt = .ok sc2 →
      "event_time" ∈ sc2.timestamp_columns) := by
  have hnames : dfColumnNames (steps16 o sc df) = dfColumnNames (steps12 sc df) := by
    unfold steps16
    rw [dfColumnNames_coerceAll, dfColumnNames_coerceAll, dfColumnNames_coerceAll,
      dfColumnNames_coerceAll]
  have hcells : getColCells (steps16 o sc df) "event_time"
      = (getColCells (steps12 sc df) "event_time").map (tsCoerce o) := by
    unfold steps16
    rw [getColCells_coerceAll_not_mem (strCoerce o) _ sc.string_columns _ hstr,
      getColCells_coerceAll_not_mem (intCoerce o) _ sc.int_columns _ hint,
      getColCells_coerceAll_not_mem (floatCoerce o) _ sc.float_columns _ hfl,
      getColCells_coerceAll_mem (tsCoerce o) _ sc.timestamp_columns _ hnd hmem]
  refine ⟨?_, ?_, ?_⟩
  · intro hin
    have hev : (dfColumnNames (steps16 o sc df)).contains "event_time" = true := by
      rw [hnames]
      simpa [List.elem_eq_mem] using hin
    rw [clean_dataframe_with_eq, if_pos hev]
    constructor
    · exact mem_names_setCol_self _ _ _
    · rw [getColCells_setCol_self, hcells, List.map_map]
      apply List.map_eq_map_iff.mpr
      intro c _
      rcases h : o.to_datetime_utc c with _ | t
      · simp [Function.comp, tsCoerce, eventDateCell, h]
      · simp [Function.comp, tsCoerce, eventDateCell, h]
  · intro hout
    have hev : ¬ (dfColumnNames (steps16 o sc df)).contains "event_time" = true := by
      rw [hnames]
      simpa [List.elem_eq_mem] using hout
    rw [clean_dataframe_with_eq, if_neg hev]
    exact hnames
  · intro dt sc2 hdt
    cases dt <;> simp [get_schema] at hdt <;> rw [← hdt] <;> decide

/-- Witness for C8 at the concrete GPS table: event_date is added, holds the UTC
day index of the parsed timestamp in the first row and null in the second. -/
theorem event_date_partition_witness :
    "event_date" ∈ dfColumnNames (clean_dataframe_with oracle0 gpsSchema sampleRawDf)
    ∧ getColCells (clean_dataframe_with oracle0 gpsSchema sampleRawDf) "event_date"
      = [Cell.date 19737, Cell.null] := by
  have h := (event_date_partition oracle0 gpsSchema sampleRawDf (by decide) (by decide)
    (by decide) (by decide) (by decide)).1 (by decide)
  exact ⟨h.1, h.2.trans (by decide)⟩

theorem conductorRun_go (o : ParseOracle) (st : Stages) (dry : Bool) :
    ∀ (files : List String) (acc : PipelineResult),
      (files.foldl (conductorStep o st dry) acc).processed
        = acc.processed ++ files.map (fun fn => _process_single_csv o st fn dry)
      ∧ (files.foldl (conductorStep o st dry) acc).total_rows
        = acc.total_rows
          + ((files.map (fun fn => _process_single_csv o st fn dry)).map
              (fun p => if p.success then p.rows_loaded else 0)).sum
  | [], acc => by simp
  | fn :: files, acc => by
    obtain ⟨h1, h2⟩ := conductorRun_go o st dry files (conductorStep o st dry acc fn)
    refine ⟨?_, ?_⟩
    · rw [List.foldl_cons, h1]
      simp [conductorStep]
    · rw [List.foldl_cons, h2]
      simp [conductorStep, Nat.add_assoc]

theorem sum_rows_ite_filter (l : List ProcessedCSV) :
    (l.map (fun p => if p.success then p.rows_loaded else 0)).sum
      = ((l.filter (fun p => p.success)).map (fun p => p.rows_loaded)).sum := by
  induction l with
  | nil => rfl
  | cons p l ih => by_cases h : p.success = true <;> simp [h, ih]

/-- C3: the Conductor processes every input in order (its entry list is the
per-file map over the inputs, so one failure never aborts the run); total_rows
is the sum of rows_loaded over exactly the successful entries; an entry succeeds
iff its error field is absent; an exception raised by detection, transformation
or loading of one table is caught and stored in that table's entry error field
(with rows_loaded staying 0 for a pre-load failure); and in dry-run mode a
fully-processed entry records the normalized table's row count with no error. -/
theorem conductor_isolates_failures (o : ParseOracle) (st : Stages)
    (files : List String) (dry_run : Bool) :
    (conductorRun o st files dry_run).processed
        = files.map (fun fn => _process_single_csv o st fn dry_run)
    ∧ (conductorRun o st files dry_run).total_rows
        = (((conductorRun o st files dry_run).processed.filter
            (fun p => p.success)).map (fun p => p.rows_loaded)).sum
    ∧ (∀ p ∈ (conductorRun o st files dry_run).processed,
        p.success = true ↔ p.error = none)
    ∧ (∀ (fn : String) (e : PyExc) (df : Df),
        st.parse fn = .ok df → detect_data_type (dfColumnNames df) = .error e →
        (_process_single_csv o st fn dry_run).error = some (errorString e)
        ∧ (_process_single_csv o st fn dry_run).rows_loaded = 0)
    ∧ (∀ (fn : String) (e : PyExc) (df : Df) (dt : DataType) (table : String),
        st.parse fn = .ok df → detect_data_type (dfColumnNames df) = .ok (dt, table) →
        clean_dataframe o dt df = .error e →
        (_process_single_csv o st fn dry_run).error = some (errorString e)
        ∧ (_process_single_csv o st fn dry_run).rows_loaded = 0)
    ∧ (∀ (fn : String) (e : PyExc) (df : Df) (dt : DataType) (table : String) (df2 : Df),
        st.parse fn = .ok df → detect_data_type (dfColumnNames df) = .ok (dt, table) →
        clean_dataframe o dt df = .ok df2 → dry_run = false →
        st.load df2 dt table = .error e →
        (_process_single_csv o st fn dry_run).error = some (errorString e))
    ∧ (∀ (fn : String) (df : Df) (dt : DataType) (table : String) (df2 : Df),
        st.parse fn = .ok df → detect_data_type (dfColumnNames df) = .ok (dt, table) →
        clean_dataframe o dt df = .ok df2 → dry_run = true →
        (_process_single_csv o st fn dry_run).error = none
        ∧ (_process_single_csv o st fn dry_run).rows_loaded = nRows df2) := by
  obtain ⟨h1, h2⟩ := conductorRun_go o st dry_run files {}
  have h1a : (conductorRun o st files dry_run).processed
      = files.map (fun fn => _process_single_csv o st fn dry_run) := by
    simpa [conductorRun] using h1
  have h2a : (conductorRun o st files dry_run).total_rows
      = ((files.map (fun fn => _process_single_csv o st fn dry_run)).map
          (fun p => if p.success then p.rows_loaded else 0)).sum := by
    simpa [conductorRun] using h2
  refine ⟨h1a, ?_, ?_, ?_, ?_, ?_, ?_⟩
  · rw [h2a, sum_rows_ite_filter, h1a]
  · intro p _
    exact Option.isNone_iff_eq_none
  · intro fn e df hparse hdetect
    constructor <;> simp [_process_single_csv, hparse, hdetect]
  · intro fn e df dt table hparse hdetect hclean
    constructor <;> simp [_process_single_csv, hparse, hdetect, hclean]
  · intro fn e df dt table df2 hparse hdetect hclean hdry hload
    subst hdry
    simp [_process_single_csv, hparse, hdetect, hclean, hload]
  · intro fn df dt table df2 hparse hdetect hclean hdry
    subst hdry
    constructor <;> simp [_process_single_csv, hparse, hdetect, hclean]

/-- Witness for C3 at a concrete dry run over three inputs: the second input's
columns match no rule, its entry carries the caught detection error, the first
entry records its two normalized rows, and total_rows is the sum 2 + 3 over the
successful first and third entries only. -/
theorem conductor_isolates_failures_witness :
    (conductorRun oracle0 exStages ["a.csv", "b.csv", "c.csv"] true).processed.length = 3
    ∧ (_process_single_csv oracle0 exStages "b.csv" true).error
        = some (errorString ⟨ExcClass.valueError,
            "Cannot detect data type from columns: "
              ++ fmtColumns ["Unknown Col 1"] ++ "..."⟩)
    ∧ (_process_single_csv oracle0 exStages "a.csv" true).rows_loaded = 2
    ∧ (_process_single_csv oracle0 exStages "a.csv" true).error = none
    ∧ (conductorRun oracle0 exStages ["a.csv", "b.csv", "c.csv"] true).total_rows = 5 := by
  have h := conductor_isolates_failures oracle0 exStages ["a.csv", "b.csv", "c.csv"] true
  have ha := h.2.2.2.2.2.2 "a.csv" [("Emitter Id", [.str "e1", .str "e2"])] DataType.gps
    "gps" (clean_dataframe_with oracle0 gpsSchema [("Emitter Id", [.str "e1", .str "e2"])])
    rfl rfl rfl rfl
  have hb := h.2.2.2.1 "b.csv"
    ⟨ExcClass.valueError,
      "Cannot detect data type from columns: " ++ fmtColumns ["Unknown Col 1"] ++ "..."⟩
    [("Unknown Col 1", [.str "u"])] rfl rfl
  refine ⟨?_, hb.1, ?_, ha.1, ?_⟩
  · rw [h.1]
    simp
  · exact ha.2.trans (by decide)
  · exact h.2.1.trans (by decide)

end ImportHawkeye
